import Mathlib

/-!
Shallow embedding of src/src/NativeLibrary/SystemMonitor.cpp (Linux branch,
which is the branch the specification's delta/aggregation claims describe).

Modelling conventions:
* `unsigned long long` arithmetic is `Nat` with explicit reduction modulo
  `W = 2^64` wherever the C code can wrap (subtraction and sums of deltas).
* The IEEE double division `total * 100.0 / denom` is modelled exactly over
  `ℚ`, with an explicit constructor for the two non-finite outcomes of the
  division of non-negative integers: `0/0` is NaN and `x/0` (`x > 0`) is +inf.
  Rounding of finite doubles is ignored; it cannot change sign, the NaN/inf
  classification, or a `≤ 100` bound whose right-hand side is representable.
* The hidden `static` baseline variables of `GetCpuUsage` become an explicit
  `CpuState` threaded through the function; the C statics are zero-initialised,
  giving `initCpuState`.
* A failing `fopen`/`statvfs`/`opendir` is modelled as a `none` input; a
  successful raw read is `some` of the parsed data.
-/

namespace SystemMonitor

/-- Modulus of C `unsigned long long` (64-bit) arithmetic. -/
def W : Nat := 18446744073709551616

/-- C unsigned 64-bit subtraction `a - b`: wraps modulo `2^64`, never clamps. -/
def usub (a b : Nat) : Nat := (a % W + (W - b % W)) % W

/-- Outcome of the double division of two non-negative integers:
a finite rational value, NaN (from `0/0`), or +infinity (from `x/0`, `x > 0`). -/
inductive FpVal where
  | val (q : ℚ)
  | nan
  | inf
deriving DecidableEq

/-- Division `num / den` of non-negative integers as IEEE double semantics:
`0/0 = NaN`, `x/0 = +inf` for `x > 0`, otherwise the exact rational. -/
def divModel (num den : Nat) : FpVal :=
  if den = 0 then (if num = 0 then FpVal.nan else FpVal.inf) else
    FpVal.val ((num : ℚ) / (den : ℚ))

/-- One parsed `/proc/stat` cpu line: `cpu %llu %llu %llu %llu`
(`totalUser`, `totalUserLow`, `totalSys`, `totalIdle`). -/
structure CpuReading where
  user : Nat
  nice : Nat
  sys : Nat
  idle : Nat
deriving DecidableEq

/-- The four `static unsigned long long` baseline variables of `GetCpuUsage`:
`lastTotalUser`, `lastTotalUserLow`, `lastTotalSys`, `lastTotalIdle`. -/
structure CpuState where
  lastUser : Nat
  lastNice : Nat
  lastSys : Nat
  lastIdle : Nat
deriving DecidableEq

/-- C statics are zero-initialised at process start. -/
def initCpuState : CpuState := ⟨0, 0, 0, 0⟩

/-- The four assignments `lastTotalUser = totalUser; ...` storing the current
reading as the new baseline. -/
def storeReading (r : CpuReading) : CpuState := ⟨r.user, r.nice, r.sys, r.idle⟩

/-- Embedding of `GetCpuUsage` (SystemMonitor.cpp lines 45-82, Linux branch).
Input `read` is `none` when `fopen("/proc/stat")` fails (the code returns `0.0`
without touching the statics), `some r` for a successful parse. Returns the
double result and the updated static state. Mirrors the source exactly:
sentinel test `lastTotalUser == 0`, unsigned wraparound subtraction, and an
unguarded division `total * 100.0 / (total + (totalIdle - lastTotalIdle))`. -/
def GetCpuUsage (st : CpuState) (read : Option CpuReading) : FpVal × CpuState :=
  match read with
  | none => (FpVal.val 0, st)
  | some r =>
    if st.lastUser = 0 then
      (FpVal.val 0, storeReading r)
    else
      let total := (usub r.user st.lastUser + usub r.nice st.lastNice +
        usub r.sys st.lastSys) % W
      let denom := (total + usub r.idle st.lastIdle) % W
      (divModel (total * 100) denom, storeReading r)

/-- Modelled from the spec: the §4.1 algorithm with negative per-component
deltas clamped to 0 (here: `Nat` truncated subtraction) and the guard
`percent = total>0 ? 100*busy/total : 0`. Used only to compare the spec's
claimed clamping behaviour against the source's `GetCpuUsage`. -/
def GetCpuUsageClamped (st : CpuState) (r : CpuReading) : FpVal × CpuState :=
  let busy := (r.user - st.lastUser) + (r.nice - st.lastNice) +
    (r.sys - st.lastSys)
  let total := busy + (r.idle - st.lastIdle)
  (if 0 < total then FpVal.val ((busy * 100 : ℚ) / (total : ℚ)) else FpVal.val 0,
    storeReading r)

/-- One line of `/proc/net/dev` as parsed by the source's
`sscanf(line, "%31[^:]: %lld ... %lld", interface, &rx_bytes, &tx_bytes)`:
the interface-name token (the at-most-31 characters before the colon), the
first column (`rx_bytes`) and the ninth column (`tx_bytes`), both `long long`.
Lines on which the sscanf does not make all three conversions contribute
nothing and are therefore not in the list. -/
structure NetEntry where
  name : String
  rx : Int
  tx : Int
deriving DecidableEq

/-- Loop body of `GetNetworkStats`: accumulate `rx`/`tx` unless
`strcmp(interface, "lo") == 0`. -/
def netStep (acc : Int × Int) (e : NetEntry) : Int × Int :=
  if e.name ≠ "lo" then (acc.1 + e.rx, acc.2 + e.tx) else acc

/-- Embedding of `GetNetworkStats` (SystemMonitor.cpp lines 273-305, Linux
branch). `read` is `none` when `fopen("/proc/net/dev")` fails (return 0,
caller-provided output `out` untouched); otherwise the parsed interface lines
in file order. On success the outputs are zeroed and then accumulated over
every line whose name is not exactly "lo"; the function has no static state. -/
def GetNetworkStats (read : Option (List NetEntry)) (out : Int × Int) :
    Int × (Int × Int) :=
  match read with
  | none => (0, out)
  | some entries => (1, entries.foldl netStep (0, 0))

/-- Aggregated cumulative totals over the non-loopback interfaces of one raw
read: the specification value `GetNetworkStats` computes on success. -/
def netAggregate (entries : List NetEntry) : Int × Int :=
  (((entries.filter fun e => e.name ≠ "lo").map fun e => e.rx).sum,
   ((entries.filter fun e => e.name ≠ "lo").map fun e => e.tx).sum)

/-- The three fields of `struct statvfs` that `GetDiskUsage` reads (all
unsigned integer types). -/
structure StatVfsResult where
  f_blocks : Nat
  f_frsize : Nat
  f_bavail : Nat
deriving DecidableEq

/-- Embedding of `GetDiskUsage` (SystemMonitor.cpp lines 182-200, Linux
branch). `q` is `none` when `statvfs(path, &stat)` returns nonzero (the code
returns 0 without writing the output slots), `some s` on success. `out` is the
caller-provided memory behind `totalSpace`/`freeSpace`. -/
def GetDiskUsage (q : Option StatVfsResult) (out : Int × Int) :
    Int × (Int × Int) :=
  match q with
  | none => (0, out)
  | some s =>
    (1, ((s.f_blocks * s.f_frsize : Nat), (s.f_bavail * s.f_frsize : Nat)))

/-- One `readdir` result: the entry name and whether `d_type == DT_DIR`. -/
structure DirEntry where
  dname : String
  isDirType : Bool
deriving DecidableEq

/-- The source's PID test `strspn(d_name, "0123456789") == strlen(d_name)`:
every character of the name is an ASCII digit (vacuously true of the empty
string, exactly as for `strspn`/`strlen`). -/
def isPidName (s : String) : Bool := s.all fun c => c.isDigit

/-- `atoi` on the all-digit strings the loop applies it to. -/
def atoiVal (s : String) : Int :=
  ((s.foldl (fun a c => a * 10 + (c.toNat - 48)) 0 : Nat) : Int)

/-- One record written to the caller's parallel output arrays
`processIds[count]`, `processNames[count]`, `memoryUsages[count]`. -/
structure ProcRecord where
  pid : Int
  pname : String
  mem : Int
deriving DecidableEq

/-- The `while ((entry = readdir(proc)) != NULL && count < maxCount)` loop of
`GetTopProcesses`: fetch the next entry, stop when none remain or `count`
has reached `maxCount`; a directory entry whose name is all digits is written
out (pid `atoi(d_name)`, name `d_name`, memory hard-coded 0) and `count`
is incremented. -/
def gtpLoop : List DirEntry → Int → Int → List ProcRecord
  | [], _, _ => []
  | e :: rest, maxCount, count =>
    if count < maxCount then
      if e.isDirType && isPidName e.dname then
        ⟨atoiVal e.dname, e.dname, 0⟩ :: gtpLoop rest maxCount (count + 1)
      else
        gtpLoop rest maxCount count
    else []

/-- Embedding of `GetTopProcesses` (SystemMonitor.cpp lines 134-180, Linux
branch). `dir` is `none` when `opendir("/proc")` fails (immediate return, no
record written); otherwise the `readdir` stream in directory order. The result
is the list of records written into the caller's arrays, in order. -/
def GetTopProcesses (dir : Option (List DirEntry)) (maxCount : Int) :
    List ProcRecord :=
  match dir with
  | none => []
  | some es => gtpLoop es maxCount 0

/-- Embedding of `CheckPortStatus` (SystemMonitor.cpp lines 242-271, Linux
branch). `sockFd` is the return of `socket(AF_INET, SOCK_STREAM, 0)` (negative
on failure), `connectResult` the return of `connect` (0 on success). The
source checks `sock < 0` and returns 0, else returns `(result == 0) ? 1 : 0`
after closing the socket. -/
def CheckPortStatus (sockFd : Int) (connectResult : Int) : Int :=
  if sockFd < 0 then 0 else if connectResult = 0 then 1 else 0

/-- C5: the first call to GetCpuUsage in a process (statics still
zero-initialised, so no prior stored sample) returns exactly 0 and stores the
current cumulative reading as the baseline. -/
theorem getCpuUsage_first_call (r : CpuReading) :
    GetCpuUsage initCpuState (some r) = (FpVal.val 0, storeReading r) := by
  simp [GetCpuUsage, initCpuState]

/-- C1: with a stored baseline (100, 10, 20, 500) and an identical current
reading — so the busy-tick delta total is zero — the unguarded division
computes `0 * 100.0 / 0`, which is IEEE NaN, not the 0 the claim requires. -/
theorem getCpuUsage_zero_delta_nan :
    (GetCpuUsage ⟨100, 10, 20, 500⟩ (some ⟨100, 10, 20, 500⟩)).1 = FpVal.nan := by
  decide

/-- C2 counterexample: on a counter restart (stored user baseline 200, current
user counter 100) the source's unsigned subtraction wraps modulo `2^64`
instead of clamping the negative user delta to 0, so `GetCpuUsage` disagrees
with the spec's clamped algorithm `GetCpuUsageClamped` (the source yields
`(2^64 - 100) * 100 / 900`, an astronomically large percentage; the clamped
algorithm yields 0). -/
theorem getCpuUsage_restart_not_clamped :
    (GetCpuUsage ⟨200, 0, 0, 0⟩ (some ⟨100, 0, 0, 1000⟩)).1 ≠
      (GetCpuUsageClamped ⟨200, 0, 0, 0⟩ ⟨100, 0, 0, 1000⟩).1 := by
  norm_num [GetCpuUsage, GetCpuUsageClamped, usub, divModel, W]

/-- C2 (amended): negative per-component deltas are not clamped — they wrap
modulo `2^64` under unsigned arithmetic — but every finite value `GetCpuUsage`
returns is still non-negative, because numerator and denominator of the
division are both non-negative. -/
theorem getCpuUsage_nonneg (st : CpuState) (r : CpuReading) (q : ℚ)
    (h : (GetCpuUsage st (some r)).1 = FpVal.val q) : 0 ≤ q := by
  by_cases h0 : st.lastUser = 0
  · simp [GetCpuUsage, h0] at h
    simp [← h]
  · simp only [GetCpuUsage, h0, if_false] at h
    unfold divModel at h
    split_ifs at h with hden
    injection h with hq
    rw [← hq]
    exact div_nonneg (Nat.cast_nonneg _) (Nat.cast_nonneg _)

/-- C2 witness: a concrete non-restart call whose finite result the
non-negativity theorem bounds below by 0. -/
theorem getCpuUsage_nonneg_witness : 0 ≤ (200 / 3 : ℚ) :=
  getCpuUsage_nonneg ⟨1, 0, 0, 0⟩ ⟨3, 0, 0, 1⟩ (200 / 3)
    (by norm_num [GetCpuUsage, usub, divModel, W])

theorem foldl_netStep_eq (entries : List NetEntry) (a : Int × Int) :
    entries.foldl netStep a =
      (a.1 + (netAggregate entries).1, a.2 + (netAggregate entries).2) := by
  induction entries generalizing a with
  | nil => simp [netAggregate]
  | cons e rest ih =>
    by_cases h : e.name = "lo"
    · simp only [List.foldl_cons, netStep, h, ne_eq, not_true_eq_false,
        if_false, ite_false]
      rw [ih a]
      simp [netAggregate, List.filter_cons, h]
    · simp only [List.foldl_cons, netStep, ne_eq, h, not_false_eq_true,
        if_true, ite_true]
      rw [ih]
      simp only [netAggregate, List.filter_cons, h]
      simp [h]
      constructor <;> ring

/-- C3 counterexample: `GetNetworkStats` has no stored baseline; the very
first call with a single interface `eth0{rx=100, tx=50}` already reports the
raw cumulative totals (100, 50), not the zero result the claimed
first-call-returns-baseline delta semantics requires. -/
theorem getNetworkStats_first_call_not_zero :
    (GetNetworkStats (some [⟨"eth0", 100, 50⟩]) (0, 0)).2 = (100, 50) ∧
      ((100 : Int), (50 : Int)) ≠ ((0 : Int), (0 : Int)) := by
  constructor
  · decide
  · decide

/-- C3 (amended): `GetNetworkStats` keeps no state and performs no
differencing: every call — the first included — returns ok = 1 together with
the aggregated cumulative rx/tx totals of the current raw read over the
interfaces not named "lo". -/
theorem getNetworkStats_stateless (entries : List NetEntry) (out : Int × Int) :
    GetNetworkStats (some entries) out = (1, netAggregate entries) := by
  simp only [GetNetworkStats]
  rw [foldl_netStep_eq entries (0, 0)]
  simp

/-- C4: the totals `GetNetworkStats` reports on a raw read are derived only
from the interfaces whose parsed name is not exactly "lo": filtering the
loopback entries out of the read does not change the result, and on the
spec's synthetic read [eth0{rx=100, tx=50}, lo{rx=999, tx=999}] the reported
totals are (100, 50), eth0's values alone. -/
theorem getNetworkStats_excludes_loopback :
    (∀ (entries : List NetEntry) (out : Int × Int),
      GetNetworkStats (some entries) out =
        GetNetworkStats (some (entries.filter fun e => e.name ≠ "lo")) out) ∧
      (GetNetworkStats (some [⟨"eth0", 100, 50⟩, ⟨"lo", 999, 999⟩]) (7, 7)).2 =
        (100, 50) := by
  constructor
  · intro entries out
    simp only [GetNetworkStats]
    rw [foldl_netStep_eq entries (0, 0),
      foldl_netStep_eq (entries.filter fun e => e.name ≠ "lo") (0, 0)]
    have hfilter : (entries.filter fun e => e.name ≠ "lo").filter
        (fun e => e.name ≠ "lo") = entries.filter fun e => e.name ≠ "lo" := by
      simp [List.filter_filter]
    simp [netAggregate, hfilter]
  · decide

/-- C7: when `statvfs` fails (the path does not resolve to a mounted
filesystem), `GetDiskUsage` returns ok = 0 and the caller's `totalSpace` and
`freeSpace` slots keep whatever they held before the call — no partial output
is written on the failure path. -/
theorem getDiskUsage_failure_no_output (out : Int × Int) :
    GetDiskUsage none out = (0, out) := rfl

theorem gtpLoop_length (es : List DirEntry) (m c : Int) :
    (gtpLoop es m c).length ≤ (m - c).toNat := by
  induction es generalizing c with
  | nil => simp [gtpLoop]
  | cons e rest ih =>
    by_cases h : c < m
    · simp only [gtpLoop, if_pos h]
      by_cases hp : (e.isDirType && isPidName e.dname) = true
      · rw [if_pos hp]
        have := ih (c + 1)
        simp only [List.length_cons]
        omega
      · rw [if_neg hp]
        have := ih c
        omega
    · simp [gtpLoop, h]

/-- C8: for every maxCount ≥ 0, `GetTopProcesses` writes at most maxCount
records into the caller-provided arrays, and with maxCount = 0 it writes no
record at all. -/
theorem getTopProcesses_bounded (es : List DirEntry) (m : Int) (hm : 0 ≤ m) :
    (GetTopProcesses (some es) m).length ≤ m.toNat ∧
      GetTopProcesses (some es) 0 = [] := by
  constructor
  · have h := gtpLoop_length es m 0
    simpa [GetTopProcesses] using h
  · cases es with
    | nil => rfl
    | cons e rest => simp [GetTopProcesses, gtpLoop]

/-- C8 witness: with three directory entries and maxCount = 1 at most one
record is written, and with maxCount = 0 none is. -/
theorem getTopProcesses_bounded_witness :
    (GetTopProcesses (some [⟨"123", true⟩, ⟨"abc", true⟩, ⟨"7", true⟩])
        1).length ≤ (1 : Int).toNat ∧
      GetTopProcesses (some [⟨"123", true⟩, ⟨"abc", true⟩, ⟨"7", true⟩]) 0 =
        [] :=
  getTopProcesses_bounded [⟨"123", true⟩, ⟨"abc", true⟩, ⟨"7", true⟩] 1
    (by decide)

/-- C9: `CheckPortStatus` always reduces to an integer boolean: the result is
0 or 1; a socket-creation failure (negative descriptor) yields 0 rather than
an error; a refused or unreachable connection (nonzero `connect` result)
yields 0; and only a successful `connect` yields 1. -/
theorem checkPortStatus_boolean (sockFd c : Int) :
    (CheckPortStatus sockFd c = 0 ∨ CheckPortStatus sockFd c = 1) ∧
      (sockFd < 0 → CheckPortStatus sockFd c = 0) ∧
      (c ≠ 0 → CheckPortStatus sockFd c = 0) ∧
      (0 ≤ sockFd → c = 0 → CheckPortStatus sockFd c = 1) := by
  unfold CheckPortStatus
  split_ifs with h1 h2 <;> simp_all

/-- C9 witness: socket failure gives 0, a refused connection gives 0, a
successful connection gives 1. -/
theorem checkPortStatus_boolean_witness :
    CheckPortStatus (-1) 7 = 0 ∧ CheckPortStatus 5 7 = 0 ∧
      CheckPortStatus 5 0 = 1 :=
  ⟨(checkPortStatus_boolean (-1) 7).2.1 (by decide),
   (checkPortStatus_boolean 5 7).2.2.1 (by decide),
   (checkPortStatus_boolean 5 0).2.2.2 (by decide) rfl⟩

theorem getCpuUsage_updates_state (st : CpuState) (r : CpuReading) :
    (GetCpuUsage st (some r)).2 = storeReading r := by
  by_cases h : st.lastUser = 0 <;> simp [GetCpuUsage, h]

/-- C10: the only 'no prior sample' sentinel of `GetCpuUsage` is the stored
user tick being 0: any call made while `lastTotalUser = 0` returns 0 and
re-stores the current reading as a fresh baseline; and because every call
stores the reading it retrieved, a call made right after a reading whose own
user-tick counter was 0 behaves exactly like the uninitialized state. -/
theorem getCpuUsage_zero_user_sentinel (st : CpuState) (r r2 : CpuReading) :
    (st.lastUser = 0 → GetCpuUsage st (some r) = (FpVal.val 0, storeReading r)) ∧
      (r.user = 0 → GetCpuUsage (GetCpuUsage st (some r)).2 (some r2) =
        (FpVal.val 0, storeReading r2)) := by
  constructor
  · intro h
    simp [GetCpuUsage, h]
  · intro h
    rw [getCpuUsage_updates_state st r]
    simp [GetCpuUsage, storeReading, h]

/-- C10 witness: the genuinely uninitialized state and the state left behind
by a reading whose user-tick counter was 0 both take the sentinel branch. -/
theorem getCpuUsage_zero_user_sentinel_witness :
    GetCpuUsage ⟨0, 0, 0, 0⟩ (some ⟨4, 5, 6, 7⟩) =
        (FpVal.val 0, storeReading ⟨4, 5, 6, 7⟩) ∧
      GetCpuUsage (GetCpuUsage ⟨9, 1, 1, 1⟩ (some ⟨0, 2, 3, 4⟩)).2
          (some ⟨5, 6, 7, 8⟩) = (FpVal.val 0, storeReading ⟨5, 6, 7, 8⟩) :=
  ⟨(getCpuUsage_zero_user_sentinel ⟨0, 0, 0, 0⟩ ⟨4, 5, 6, 7⟩ ⟨4, 5, 6, 7⟩).1 rfl,
   (getCpuUsage_zero_user_sentinel ⟨9, 1, 1, 1⟩ ⟨0, 2, 3, 4⟩ ⟨5, 6, 7, 8⟩).2 rfl⟩

theorem usub_of_le (a b : Nat) (hba : b ≤ a) (ha : a < W) :
    usub a b = a - b := by
  have hb : b < W := lt_of_le_of_lt hba ha
  unfold usub W at *
  omega

/-- C6 counterexample: the components of the two consecutive samples are
(vacuously) non-decreasing when the samples are identical, yet the result is
NaN — the unguarded `0 * 100.0 / 0` — which is not a value in [0, 100]. -/
theorem getCpuUsage_equal_samples_nan :
    (GetCpuUsage ⟨7, 3, 9, 400⟩ (some ⟨7, 3, 9, 400⟩)).1 = FpVal.nan := by
  decide

/-- C6 (amended): for consecutive cumulative samples with non-decreasing
components, a percentage in [0, 100] is returned provided additionally that
at least one tick elapsed (the four component deltas are not all zero — else
the division is 0/0 = NaN) and the summed deltas stay below `2^64` (else the
unsigned sums wrap). Counter values themselves are below `2^64`, as every
`unsigned long long` read by `fscanf %llu` is. -/
theorem getCpuUsage_in_range (st : CpuState) (r : CpuReading)
    (hu : st.lastUser ≤ r.user) (hn : st.lastNice ≤ r.nice)
    (hs : st.lastSys ≤ r.sys) (hi : st.lastIdle ≤ r.idle)
    (hru : r.user < W) (hrn : r.nice < W) (hrs : r.sys < W) (hri : r.idle < W)
    (hsum : r.user - st.lastUser + (r.nice - st.lastNice) +
      (r.sys - st.lastSys) + (r.idle - st.lastIdle) < W)
    (hpos : 0 < r.user - st.lastUser + (r.nice - st.lastNice) +
      (r.sys - st.lastSys) + (r.idle - st.lastIdle)) :
    ∃ q : ℚ, (GetCpuUsage st (some r)).1 = FpVal.val q ∧ 0 ≤ q ∧ q ≤ 100 := by
  by_cases h0 : st.lastUser = 0
  · exact ⟨0, by simp [GetCpuUsage, h0], le_refl 0, by norm_num⟩
  · have e1 := usub_of_le r.user st.lastUser hu hru
    have e2 := usub_of_le r.nice st.lastNice hn hrn
    have e3 := usub_of_le r.sys st.lastSys hs hrs
    have e4 := usub_of_le r.idle st.lastIdle hi hri
    set du := r.user - st.lastUser with hdu
    set dn := r.nice - st.lastNice with hdn
    set ds := r.sys - st.lastSys with hds
    set di := r.idle - st.lastIdle with hdi
    have etot : (du + dn + ds) % W = du + dn + ds := Nat.mod_eq_of_lt (by omega)
    have eden : (du + dn + ds + di) % W = du + dn + ds + di :=
      Nat.mod_eq_of_lt (by omega)
    have hden0 : du + dn + ds + di ≠ 0 := by omega
    refine ⟨((du + dn + ds) * 100 : ℚ) / ((du + dn + ds + di : Nat) : ℚ),
      ?_, ?_, ?_⟩
    · simp only [GetCpuUsage, h0, if_false, e1, e2, e3, e4, etot]
      rw [eden]
      unfold divModel
      rw [if_neg hden0, FpVal.val.injEq]
      push_cast
      ring
    · positivity
    · rw [div_le_iff₀ (by exact_mod_cast Nat.pos_of_ne_zero hden0)]
      push_cast
      nlinarith [Nat.cast_nonneg (α := ℚ) di]

/-- C6 witness: from baseline (1, 1, 1, 1) to reading (2, 1, 1, 2) one user
tick and one idle tick elapsed; the returned percentage (50) is in [0, 100]. -/
theorem getCpuUsage_in_range_witness :
    ∃ q : ℚ, (GetCpuUsage ⟨1, 1, 1, 1⟩ (some ⟨2, 1, 1, 2⟩)).1 = FpVal.val q ∧
      0 ≤ q ∧ q ≤ 100 :=
  getCpuUsage_in_range ⟨1, 1, 1, 1⟩ ⟨2, 1, 1, 2⟩ (by decide) (by decide)
    (by decide) (by decide) (by decide) (by decide) (by decide) (by decide)
    (by decide) (by decide)

end SystemMonitor
